import Mathlib

/-!
Shallow embedding of the ride-hailing backend's dispatch and ride-lifecycle
core (routes/admin.js, routes/driver.js, routes/ride.js, models/Ride.js and
the socket handler module).  Mongo documents become Lean structures; each
HTTP / socket handler becomes a pure function from the relevant document
state (an `Option Ride` stands for the result of a `findById`) to a typed
outcome plus the updated state.  Monetary amounts are modelled as exact
rationals; timestamps as natural numbers.
-/

namespace IuApk

/-- Ride status enum from models/Ride.js. -/
inductive RideStatus
  | pending | searching | accepted | arrived | started | completed | cancelled
deriving DecidableEq, Repr

/-- User roles relevant to dispatch ("Driver" / "SubDriver" / "Customer" / "Admin"). -/
inductive Role
  | driver | subDriver | customer | admin
deriving DecidableEq, Repr

/-- Pricing snapshot (models/Ride.js `pricing`); `serviceFee` appears only in the
defensive default object written by the completion handlers. -/
structure Pricing where
  baseFare : ℚ
  distanceFare : ℚ
  timeFare : ℚ
  serviceFee : ℚ := 0
  finalAmount : ℚ
deriving DecidableEq, Repr

/-- Cancellation subdocument (models/Ride.js `cancellation`). -/
structure Cancellation where
  cancelledBy : String
  reason : Option String
  cancellationFee : ℚ
  refundAmount : ℚ
  cancelledAt : Nat
deriving DecidableEq, Repr

/-- The Ride document, restricted to the fields the verified handlers read or
write.  `driver = none` models an unset / null `driver` field. -/
structure Ride where
  user : Nat
  driver : Option Nat := none
  subDriver : Option Nat := none
  declinedDrivers : List Nat := []
  rideType : String
  serviceType : String := "ride"
  status : RideStatus := .pending
  pricing : Pricing
  verificationOtp : Option String := none
  otpVerified : Bool := false
  otpVerifiedAt : Option Nat := none
  acceptedAt : Option Nat := none
  completedAt : Option Nat := none
  actualPickupTime : Option Nat := none
  actualStartTime : Option Nat := none
  actualEndTime : Option Nat := none
  actualDropTime : Option Nat := none
  cancellation : Option Cancellation := none
deriving DecidableEq, Repr

/-- Driver-specific presence fields on the User document (`driverInfo`).
`isAvailable = none` models an undefined flag (distinct from `false`, because
the socket code tests `isAvailable !== false`). -/
structure DriverInfo where
  isAvailable : Option Bool := none
  vehicleType : Option String := none
deriving DecidableEq, Repr

/-- The User document fields the verified handlers touch. -/
structure UserRec where
  id : Nat
  role : Role
  isOnline : Bool := false
  driverInfo : DriverInfo := {}
deriving DecidableEq, Repr

/-! ### Dispatch Engine (socket module, `broadcastRideRequest`)

The socket file iterates the `main-drivers` room, re-reading each member's
User document (`isOnline`, `driverInfo.isAvailable`, `role`) and emitting the
offer to those passing the check; if zero were sent it repeats over the
`sub-drivers` room; if the total is still zero it broadcasts to the whole
`drivers` room.  The ride payload is forwarded verbatim and never inspected,
so no field of the ride (in particular not its vehicle class) influences the
candidate check. -/

/-- ASCII lower-casing of a character, as used by JavaScript `toLowerCase()`
on the ASCII vehicle-class strings this code compares. -/
def lowerChar (c : Char) : Char :=
  if c.isUpper then Char.ofNat (c.toNat + 32) else c

/-- `s.toLowerCase()` for ASCII strings. -/
def jsToLower (s : String) : String := ⟨s.data.map lowerChar⟩

/-- `s.trim()`: strip whitespace from both ends. -/
def jsTrim (s : String) : String :=
  ⟨((s.data.dropWhile Char.isWhitespace).reverse.dropWhile Char.isWhitespace).reverse⟩

/-- `Math.min` on exact rationals. -/
def mathMin (a b : ℚ) : ℚ := if a ≤ b then a else b

/-- `Math.max` on exact rationals. -/
def mathMax (a b : ℚ) : ℚ := if a ≤ b then b else a

/-- A live socket session (socket id plus the authenticated user id). -/
structure Session where
  sid : Nat
  userId : Nat
deriving DecidableEq, Repr

/-- The three role rooms consulted by `broadcastRideRequest`. -/
structure SocketRooms where
  mainDriversRoom : List Session
  subDriversRoom : List Session
  driversRoom : List Session
deriving DecidableEq, Repr

/-- Fresh presence check performed per candidate:
`user && user.isOnline && (user.driverInfo?.isAvailable !== false) && user.role === expected`. -/
def dispatchEligible (expected : Role) (u : Option UserRec) : Bool :=
  match u with
  | none => false
  | some u => u.isOnline && !(u.driverInfo.isAvailable == some false) && (u.role == expected)

/-- Tier-1 pass: members of the main-drivers room passing the fresh check. -/
def tier1Pass (rooms : SocketRooms) (presence : Nat → Option UserRec) : List Session :=
  rooms.mainDriversRoom.filter (fun s => dispatchEligible .driver (presence s.userId))

/-- Tier-2 pass: members of the sub-drivers room passing the fresh check. -/
def tier2Pass (rooms : SocketRooms) (presence : Nat → Option UserRec) : List Session :=
  rooms.subDriversRoom.filter (fun s => dispatchEligible .subDriver (presence s.userId))

/-- Outcome of one `broadcastRideRequest` run: the per-tier send lists, whether
the unconditional fallback to the `drivers` room fired, and the final set of
sessions that received the `new-ride-request` event. -/
structure BroadcastOutcome where
  mainSent : List Session
  subSent : List Session
  fallbackUsed : Bool
  notified : List Session
deriving DecidableEq, Repr

/-- `broadcastRideRequest`: tier 2 runs only when tier 1 sent zero offers, and
the fallback broadcast to the whole `drivers` room fires only when the total
sent count is zero. -/
def broadcastRideRequest (rooms : SocketRooms) (presence : Nat → Option UserRec) :
    BroadcastOutcome :=
  let mainSent := tier1Pass rooms presence
  let subSent := if mainSent.length = 0 then tier2Pass rooms presence else []
  if mainSent.length + subSent.length = 0 then
    { mainSent := mainSent, subSent := subSent, fallbackUsed := true,
      notified := rooms.driversRoom }
  else
    { mainSent := mainSent, subSent := subSent, fallbackUsed := false,
      notified := mainSent ++ subSent }

/-! ### Accept: admin route (`POST /accept/:rideId`, routes/admin.js)

The route issues a single `findOneAndUpdate` whose filter matches the ride id
AND a driver field that is absent / null / undefined, and whose update sets
`driver`, optionally `subDriver`, `status = "accepted"` and `acceptedAt`.
When that conditional update matched nothing it re-reads the ride to
distinguish "not found" (404) from "already accepted by another driver" (400). -/

inductive AdminAcceptResult
  | success | rideNotFound | alreadyAccepted
deriving DecidableEq, Repr

/-- The `$set` document of the admin route's conditional update. -/
def adminAcceptUpdate (r : Ride) (driverId : Nat) (sub : Option Nat) (now : Nat) : Ride :=
  { r with driver := some driverId,
           subDriver := match sub with | some s => some s | none => r.subDriver,
           status := .accepted,
           acceptedAt := some now }

/-- Admin accept as one atomic operation on the stored ride: the conditional
update fires exactly when the driver field is unset. -/
def adminAcceptRide (db : Option Ride) (driverId : Nat) (sub : Option Nat) (now : Nat) :
    AdminAcceptResult × Option Ride :=
  match db with
  | none => (.rideNotFound, none)
  | some r =>
    if r.driver = none then (.success, some (adminAcceptUpdate r driverId sub now))
    else (.alreadyAccepted, some r)

/-- Post-acceptance availability side effect of the admin route: it reads the
winning driver and, when `!driver.driverInfo?.isAvailable` (i.e. the flag is
not `true`), writes `driverInfo.isAvailable = true` — it makes the winner
AVAILABLE, it never clears the flag. -/
def adminAcceptAvailabilityFix (u : UserRec) : UserRec :=
  if u.driverInfo.isAvailable = some true then u
  else { u with driverInfo := { u.driverInfo with isAvailable := some true } }

/-- Admin accept including its availability side effect on the winner. -/
def adminAcceptFull (db : Option Ride) (winner : UserRec) (sub : Option Nat) (now : Nat) :
    AdminAcceptResult × Option Ride × UserRec :=
  match adminAcceptRide db winner.id sub now with
  | (.success, db') => (.success, db', adminAcceptAvailabilityFix winner)
  | (res, db') => (res, db', winner)

/-! ### Accept: driver route (`POST /accept-ride/:rideId`, routes/driver.js)

This route is a read-then-write: `findById`, a status check
(`ride.status !== "pending"` → "Ride is no longer available"), vehicle-class
checks, an availability check, and then an UNCONDITIONAL `ride.save()` that
sets `driver`, `status = "accepted"` and `actualPickupTime`.  Nothing re-checks
the driver field at write time. -/

inductive DriverAcceptError
  | rideNotFound | noLongerAvailable | vehicleNotSuitable | vehicleMismatch | driverNotAvailable
deriving DecidableEq, Repr

/-- Vehicle classes accepted for a delivery request (lower-cased). -/
def deliveryAllowedVehicles : List String := ["bike", "auto", "car", "any"]

/-- `s?.toLowerCase()` on an optional string. -/
def optToLower : Option String → Option String
  | none => none
  | some s => some (jsToLower s)

/-- The driver route's vehicle-matching rule: for `serviceType === "delivery"`
the driver's class must be one of bike/auto/car/any; otherwise the lower-cased
ride type and driver vehicle type must be strictly equal. -/
def driverVehicleOk (r : Ride) (vehicleType : Option String) : Bool :=
  if r.serviceType = "delivery" then
    match optToLower vehicleType with
    | some v => deliveryAllowedVehicles.contains v
    | none => false
  else optToLower (some r.rideType) == optToLower vehicleType

/-- The read/validate phase of the driver accept route (everything before the
`ride.save()`), evaluated against the ride snapshot read by `findById`. -/
def driverAcceptCheck (db : Option Ride) (u : UserRec) : Option DriverAcceptError :=
  match db with
  | none => some .rideNotFound
  | some r =>
    if r.status ≠ RideStatus.pending then some .noLongerAvailable
    else if ¬ driverVehicleOk r u.driverInfo.vehicleType then
      if r.serviceType = "delivery" then some .vehicleNotSuitable else some .vehicleMismatch
    else if u.driverInfo.isAvailable ≠ some true then some .driverNotAvailable
    else none

/-- The write phase of the driver accept route: mutate the in-memory ride and
`save()` — no condition on the current stored driver field.  It stamps
`actualPickupTime`, not `acceptedAt`. -/
def driverAcceptWrite (r : Ride) (driverId : Nat) (sub : Option Nat) (now : Nat) : Ride :=
  { r with driver := some driverId,
           subDriver := match sub with | some s => some s | none => r.subDriver,
           status := .accepted,
           actualPickupTime := some now }

/-- `""`, `"Not Set"` or a missing vehicle type is rewritten to `"Bike"` on the
driver document before the availability check. -/
def driverVehicleTypeFix (u : UserRec) : UserRec :=
  match u.driverInfo.vehicleType with
  | none => { u with driverInfo := { u.driverInfo with vehicleType := some "Bike" } }
  | some v =>
    if v = "" ∨ v = "Not Set" then
      { u with driverInfo := { u.driverInfo with vehicleType := some "Bike" } }
    else u

/-- The driver accept route run without interference (check phase immediately
followed by the write phase), including its user-document side effects
(vehicle-type fix; `driverInfo.isAvailable = false` on success). -/
def driverAcceptRide (db : Option Ride) (u : UserRec) (sub : Option Nat) (now : Nat) :
    Option DriverAcceptError × Option Ride × UserRec :=
  match driverAcceptCheck db u with
  | some DriverAcceptError.driverNotAvailable =>
      (some .driverNotAvailable, db, driverVehicleTypeFix u)
  | some e => (some e, db, u)
  | none =>
    match db with
    | none => (some .rideNotFound, none, u)
    | some r =>
      let u1 := driverVehicleTypeFix u
      (none, some (driverAcceptWrite r u.id sub now),
        { u1 with driverInfo := { u1.driverInfo with isAvailable := some false } })

/-- Two driver-route accept attempts interleaved at the storage suspension
points in the order read-A, read-B, write-A, write-B: both validate against
the same snapshot, and each write is applied unconditionally to the current
stored ride.  Returns whether each attempt reported success, and the final
stored ride. -/
def twoInterleavedDriverAccepts (db : Option Ride) (a b : UserRec) (t1 t2 : Nat) :
    Bool × Bool × Option Ride :=
  let okA := (driverAcceptCheck db a).isNone
  let okB := (driverAcceptCheck db b).isNone
  let db1 := if okA then db.map (fun r => driverAcceptWrite r a.id none t1) else db
  let db2 := if okB then db1.map (fun r => driverAcceptWrite r b.id none t2) else db1
  (okA, okB, db2)

/-! ### Decline (`POST /decline/:rideId`, routes/admin.js)

The route loads the ride, rejects when `ride.driver` is set, and otherwise
performs NO write at all ("Skip declined drivers list - just log and
continue"): it re-broadcasts to the whole `drivers` room with an
`excludeDrivers` payload equal to the ride's stored (unchanged)
`declinedDrivers` array, then notifies the declining driver's own room. -/

inductive DeclineResult
  | rideNotFound | alreadyAccepted | declined
deriving DecidableEq, Repr

/-- Observable effects of one decline call. -/
structure DeclineEffects where
  result : DeclineResult
  db : Option Ride
  rebroadcastToDriversRoom : Bool
  excludeDriversPayload : List Nat
  declinerNotified : Option Nat
deriving DecidableEq, Repr

/-- The decline route. -/
def declineRide (db : Option Ride) (driverId : Nat) : DeclineEffects :=
  match db with
  | none =>
      { result := .rideNotFound, db := none, rebroadcastToDriversRoom := false,
        excludeDriversPayload := [], declinerNotified := none }
  | some r =>
    if r.driver ≠ none then
      { result := .alreadyAccepted, db := some r, rebroadcastToDriversRoom := false,
        excludeDriversPayload := [], declinerNotified := none }
    else
      { result := .declined, db := some r, rebroadcastToDriversRoom := true,
        excludeDriversPayload := r.declinedDrivers, declinerNotified := some driverId }

/-! ### OTP verification (`POST /verify-otp`, routes/admin.js)

After validating the ride id the route rejects with "RideId and OTP are
required" whenever `enteredOtp` is falsy (missing or the empty string) —
BEFORE loading the ride.  Otherwise it loads the ride and succeeds when the
stored `verificationOtp` is truthy and matches the entered value under strict
equality, loose equality, or equality of the whitespace-trimmed string forms;
on success it sets `otpVerified = true` and `otpVerifiedAt`; otherwise it
answers "Invalid OTP" without touching the ride.  (Both values are modelled as
strings, for which the strict and loose JavaScript comparisons coincide with
equality, and `String(x || "").trim()` is `trim` after defaulting to `""`.) -/

inductive VerifyOtpResult
  | paramsRequired | rideNotFound | success | invalidOtp
deriving DecidableEq, Repr

/-- JavaScript truthiness of an optional string: `null`/`undefined` and `""`
are falsy, every other string is truthy. -/
def jsTruthyStr (s : Option String) : Bool :=
  match s with
  | none => false
  | some s => !s.isEmpty

/-- The verify-otp route. -/
def verifyOtp (db : Option Ride) (entered : Option String) (now : Nat) :
    VerifyOtpResult × Option Ride :=
  if ¬ jsTruthyStr entered then (.paramsRequired, db)
  else
    match db with
    | none => (.rideNotFound, none)
    | some r =>
      let storedTrim := jsTrim (r.verificationOtp.getD "")
      let inputTrim := jsTrim (entered.getD "")
      if jsTruthyStr r.verificationOtp ∧
          (r.verificationOtp = entered ∨ storedTrim = inputTrim) then
        (.success, some { r with otpVerified := true, otpVerifiedAt := some now })
      else (.invalidOtp, some r)

/-! ### Completion (`POST /complete-delivery`, routes/admin.js)

The route loads the ride, rejects with "OTP must be verified before completing
delivery" when `otpVerified` is false, and otherwise — with NO check on the
current status — sets `status = "completed"`, `completedAt` and
`actualDropTime`, filling a fixed default pricing object when
`!ride.pricing || !ride.pricing.finalAmount` (with pricing a required schema
subdocument, that is a falsy, i.e. zero, `finalAmount`). -/

inductive CompleteResult
  | rideNotFound | otpNotVerified | success
deriving DecidableEq, Repr

/-- Default pricing written defensively by the completion handlers. -/
def defaultPricing : Pricing :=
  { baseFare := 50, distanceFare := 20, timeFare := 10, serviceFee := 5, finalAmount := 85 }

/-- `if (!ride.pricing || !ride.pricing.finalAmount) ride.pricing = {...}`. -/
def ensurePricing (r : Ride) : Ride :=
  if r.pricing.finalAmount = 0 then { r with pricing := defaultPricing } else r

/-- The complete-delivery route. -/
def completeDelivery (db : Option Ride) (now : Nat) : CompleteResult × Option Ride :=
  match db with
  | none => (.rideNotFound, none)
  | some r =>
    if ¬ r.otpVerified then (.otpNotVerified, some r)
    else
      (.success,
        some (ensurePricing
          { r with status := .completed, completedAt := some now, actualDropTime := some now }))

/-! ### Status update (`PATCH /:rideId/status`, routes/ride.js)

The route requires the caller to be the assigned driver, accepts the strings
accepted/arrived/started/completed, and calls `ride.updateStatus`
(models/Ride.js), which assigns the new status UNCONDITIONALLY — no transition
or OTP check — stamping `actualPickupTime` / `actualStartTime` /
`actualEndTime` for accepted / started / completed.  For "completed" the route
additionally stamps `completedAt` and `actualDropTime` and fills default
pricing, again without consulting `otpVerified`. -/

inductive PatchStatusResult
  | rideNotFound | unauthorized | invalidStatus | success
deriving DecidableEq, Repr

/-- The route's `validStatuses` list, parsed to the status enum. -/
def parseStatus (s : String) : Option RideStatus :=
  if s = "accepted" then some .accepted
  else if s = "arrived" then some .arrived
  else if s = "started" then some .started
  else if s = "completed" then some .completed
  else none

/-- `rideSchema.methods.updateStatus` from models/Ride.js. -/
def updateStatusMethod (r : Ride) (st : RideStatus) (now : Nat) : Ride :=
  let r1 := { r with status := st }
  match st with
  | .accepted => { r1 with actualPickupTime := some now }
  | .started => { r1 with actualStartTime := some now }
  | .completed => { r1 with actualEndTime := some now }
  | _ => r1

/-- The PATCH status route. -/
def patchRideStatus (db : Option Ride) (caller : Nat) (newStatus : String) (now : Nat) :
    PatchStatusResult × Option Ride :=
  match db with
  | none => (.rideNotFound, none)
  | some r =>
    match r.driver with
    | none => (.unauthorized, some r)
    | some d =>
      if d ≠ caller then (.unauthorized, some r)
      else
        match parseStatus newStatus with
        | none => (.invalidStatus, some r)
        | some st =>
          let r1 := updateStatusMethod r st now
          if st = RideStatus.completed then
            (.success,
              some (ensurePricing
                { r1 with completedAt := some now, actualDropTime := some now }))
          else (.success, some r1)

/-! ### Cancellation (`POST /:rideId/cancel`, routes/ride.js + models/Ride.js)

Only the requesting customer may cancel; completed/cancelled rides are
rejected.  The fee is `Math.min(finalAmount * 0.1, 50)` when the status is
"accepted" or "arrived" and zero otherwise (so pending, searching AND started
rides incur no fee); `cancelRide` stamps the cancellation subdocument with
`refundAmount = max(0, finalAmount - fee)`, and the response reports the same
fee and refund. -/

inductive CancelResult
  | rideNotFound | unauthorized | cannotCancel
  | cancelled (fee : ℚ) (refund : ℚ)
deriving DecidableEq, Repr

/-- The route's fee policy. -/
def cancellationFeeFor (r : Ride) : ℚ :=
  if r.status = RideStatus.accepted ∨ r.status = RideStatus.arrived then
    mathMin (r.pricing.finalAmount / 10) 50
  else 0

/-- `rideSchema.methods.cancelRide` from models/Ride.js. -/
def cancelRideMethod (r : Ride) (cancelledBy : String) (reason : Option String)
    (fee : ℚ) (now : Nat) : Ride :=
  { r with status := .cancelled,
           cancellation := some
             { cancelledBy := cancelledBy, reason := reason, cancellationFee := fee,
               refundAmount := mathMax 0 (r.pricing.finalAmount - fee), cancelledAt := now } }

/-- The cancel route. -/
def cancelRideRoute (db : Option Ride) (caller : Nat) (reason : Option String) (now : Nat) :
    CancelResult × Option Ride :=
  match db with
  | none => (.rideNotFound, none)
  | some r =>
    if r.user ≠ caller then (.unauthorized, some r)
    else if r.status = RideStatus.completed ∨ r.status = RideStatus.cancelled then
      (.cannotCancel, some r)
    else
      let fee := cancellationFeeFor r
      (.cancelled fee (mathMax 0 (r.pricing.finalAmount - fee)),
        some (cancelRideMethod r "user" reason fee now))

/-! ### Presence handlers (socket module)

`update-availability` (drivers and sub-drivers only) writes BOTH
`driverInfo.isAvailable` and `isOnline` to the same submitted value; the
disconnect handler sets `isOnline = false` for every non-customer and, for
drivers and sub-drivers, additionally writes `isAvailable = false` and
`isOnline = false` together. -/

inductive AvailabilityUpdateResult
  | updated | notDriverError
deriving DecidableEq, Repr

/-- The `update-availability` socket handler. -/
def updateAvailabilityHandler (u : UserRec) (available : Bool) :
    AvailabilityUpdateResult × UserRec :=
  if u.role = Role.driver ∨ u.role = Role.subDriver then
    (.updated,
      { u with isOnline := available,
               driverInfo := { u.driverInfo with isAvailable := some available } })
  else (.notDriverError, u)

/-- The socket disconnect handler. -/
def disconnectHandler (u : UserRec) : UserRec :=
  let u1 := if u.role ≠ Role.customer then { u with isOnline := false } else u
  if u.role = Role.driver ∨ u.role = Role.subDriver then
    { u1 with isOnline := false,
              driverInfo := { u1.driverInfo with isAvailable := some false } }
  else u1

/-! ### Concrete fixtures used by witnesses and counterexamples -/

/-- Pricing snapshot with final amount 100. -/
def testPricing : Pricing :=
  { baseFare := 40, distanceFare := 40, timeFare := 20, finalAmount := 100 }

/-- A freshly created ride: pending, no driver yet. -/
def pendingRide : Ride := { user := 5, rideType := "bike", pricing := testPricing }

/-- An online, available main driver with a bike. -/
def driverA : UserRec :=
  { id := 1, role := .driver, isOnline := true,
    driverInfo := { isAvailable := some true, vehicleType := some "bike" } }

/-- A second online, available main driver with a bike. -/
def driverB : UserRec :=
  { id := 2, role := .driver, isOnline := true,
    driverInfo := { isAvailable := some true, vehicleType := some "bike" } }

/-! ### C1 — accept atomicity -/

/-- C1 (amended): the ADMIN accept endpoint is a single atomic conditional
update.  It succeeds exactly when the ride exists with an unset driver field,
and that one update writes the driver, the accepted status and the accepted
timestamp; a ride that exists with a driver already set yields the distinct
`alreadyAccepted` conflict outcome while a missing ride yields `rideNotFound`;
consequently, of two admin accept attempts on the same free ride — each
attempt being one atomic operation on the stored ride, so every interleaving
is one of the two sequential orders — the first succeeds, the second receives
`alreadyAccepted`, and the driver field afterwards equals the winner's id. -/
theorem adminAccept_atomic_first_wins (r : Ride) (d1 d2 : Nat)
    (s1 s2 : Option Nat) (n1 n2 : Nat) (hfree : r.driver = none) :
    ((adminAcceptRide (some r) d1 s1 n1).1 = .success ↔ r.driver = none)
  ∧ adminAcceptRide (some r) d1 s1 n1 = (.success, some (adminAcceptUpdate r d1 s1 n1))
  ∧ (adminAcceptUpdate r d1 s1 n1).driver = some d1
  ∧ (adminAcceptUpdate r d1 s1 n1).status = .accepted
  ∧ (adminAcceptUpdate r d1 s1 n1).acceptedAt = some n1
  ∧ adminAcceptRide none d1 s1 n1 = (.rideNotFound, none)
  ∧ (∀ r' : Ride, r'.driver ≠ none →
      adminAcceptRide (some r') d1 s1 n1 = (.alreadyAccepted, some r'))
  ∧ (adminAcceptRide ((adminAcceptRide (some r) d1 s1 n1).2) d2 s2 n2).1
      = .alreadyAccepted
  ∧ ((adminAcceptRide ((adminAcceptRide (some r) d1 s1 n1).2) d2 s2 n2).2.map Ride.driver)
      = some (some d1) := by
  refine ⟨?_, ?_, ?_, ?_, ?_, ?_, ?_, ?_, ?_⟩ <;>
    simp [adminAcceptRide, adminAcceptUpdate, hfree]

/-- C1 (witness): on a concrete pending ride, the first admin accept succeeds
and the second receives the `alreadyAccepted` conflict, the stored driver
being the first caller's id. -/
theorem adminAccept_atomic_first_wins_witness :
    (adminAcceptRide (some pendingRide) 1 none 10).1 = .success
  ∧ (adminAcceptRide ((adminAcceptRide (some pendingRide) 1 none 10).2) 2 none 11).1
      = .alreadyAccepted
  ∧ ((adminAcceptRide ((adminAcceptRide (some pendingRide) 1 none 10).2) 2 none 11).2.map
        Ride.driver) = some (some 1) := by
  have h := adminAccept_atomic_first_wins pendingRide 1 2 none none 10 11 rfl
  exact ⟨h.1.mpr rfl, h.2.2.2.2.2.2.2.1, h.2.2.2.2.2.2.2.2⟩

/-- C1 (counterexample): the DRIVER accept-ride endpoint is a read-then-write
(`findById`, a `status !== "pending"` check, then an unconditional `save`), so
with two attempts interleaved as read-A, read-B, write-A, write-B — both
validations see the same pending snapshot — BOTH attempts succeed, refuting
"for any two accept attempts on the same ride, at most one succeeds"; the
driver field ends up as the last writer's id, silently overwriting the first
winner. -/
theorem driverAccept_double_success :
    (twoInterleavedDriverAccepts (some pendingRide) driverA driverB 10 11).1 = true
  ∧ (twoInterleavedDriverAccepts (some pendingRide) driverA driverB 10 11).2.1 = true
  ∧ ((twoInterleavedDriverAccepts (some pendingRide) driverA driverB 10 11).2.2.map
        Ride.driver) = some (some 2) := by
  decide

/-! ### C2 — completion gated on OTP -/

/-- An accepted ride whose pickup OTP was never verified. -/
def unverifiedAcceptedRide : Ride :=
  { user := 5, driver := some 1, rideType := "bike", status := .accepted,
    pricing := testPricing, verificationOtp := some "1234", otpVerified := false }

/-- An accepted (not yet started) ride whose OTP has been verified. -/
def verifiedAcceptedRide : Ride :=
  { user := 5, driver := some 1, rideType := "bike", status := .accepted,
    pricing := testPricing, verificationOtp := some "1234", otpVerified := true,
    otpVerifiedAt := some 20 }

/-- C2 (amended): the complete-delivery operation rejects with the
`otpNotVerified` outcome and leaves the ride unchanged whenever `otpVerified`
is false, and succeeds — setting `status = completed` and stamping the
completion timestamp — whenever the OTP has been verified; but it checks no
status precondition, so completion is reachable from ANY current status, and
the generic status-update route lets the assigned driver set
`status = completed` without any OTP check at all. -/
theorem completeDelivery_otp_gate (r : Ride) (now : Nat) :
    (r.otpVerified = false → completeDelivery (some r) now = (.otpNotVerified, some r))
  ∧ (r.otpVerified = true →
      (completeDelivery (some r) now).1 = .success
      ∧ ((completeDelivery (some r) now).2.map Ride.status) = some RideStatus.completed
      ∧ ((completeDelivery (some r) now).2.map Ride.completedAt) = some (some now)) := by
  constructor
  · intro h
    simp [completeDelivery, h]
  · intro h
    refine ⟨?_, ?_, ?_⟩ <;> simp [completeDelivery, ensurePricing, h] <;> split <;> simp

/-- C2 (witness): a ride with `otpVerified = false` is rejected unchanged, and
the same ride after verification is completed with its timestamp stamped. -/
theorem completeDelivery_otp_gate_witness :
    completeDelivery (some unverifiedAcceptedRide) 60
      = (.otpNotVerified, some unverifiedAcceptedRide)
  ∧ (completeDelivery (some verifiedAcceptedRide) 60).1 = .success
  ∧ ((completeDelivery (some verifiedAcceptedRide) 60).2.map Ride.status)
      = some RideStatus.completed := by
  have h1 := completeDelivery_otp_gate unverifiedAcceptedRide 60
  have h2 := completeDelivery_otp_gate verifiedAcceptedRide 60
  exact ⟨h1.1 rfl, (h2.2 rfl).1, (h2.2 rfl).2.1⟩

/-- C2 (counterexample): the claim fails on the code in two ways.  The PATCH
status route completes a ride whose OTP was never verified (refuting "for
every ride with otpVerified=false, every Complete operation fails"), and
complete-delivery completes a verified ride whose status is `accepted`, never
`started` (refuting "completion is reachable only from status started"). -/
theorem complete_without_otp_or_started :
    unverifiedAcceptedRide.otpVerified = false
  ∧ (patchRideStatus (some unverifiedAcceptedRide) 1 "completed" 50).1 = .success
  ∧ ((patchRideStatus (some unverifiedAcceptedRide) 1 "completed" 50).2.map Ride.status)
      = some RideStatus.completed
  ∧ verifiedAcceptedRide.status = RideStatus.accepted
  ∧ (completeDelivery (some verifiedAcceptedRide) 60).1 = .success
  ∧ ((completeDelivery (some verifiedAcceptedRide) 60).2.map Ride.status)
      = some RideStatus.completed := by
  decide

/-! ### C3 — tiered fallback liveness -/

/-- Rooms with no main drivers and no sub-drivers but one connected session in
the `drivers` room. -/
def emptyTiersRooms : SocketRooms :=
  { mainDriversRoom := [], subDriversRoom := [], driversRoom := [⟨3, 3⟩] }

/-- A presence store with no users at all. -/
def offlinePresence : Nat → Option UserRec := fun _ => none

/-- C3: when the tier-1 pass over main drivers and the tier-2 pass over
sub-drivers each produce zero successful pushes, the offer is broadcast
unconditionally to the entire drivers room; the fallback never fires when an
earlier tier pushed to at least one session (tier 1 nonempty, or tier 2
nonempty, suppresses it); and whenever any driver session is connected (the
drivers room is nonempty) the set of notified sessions is nonempty. -/
theorem broadcast_tiered_fallback (rooms : SocketRooms) (presence : Nat → Option UserRec) :
    (tier1Pass rooms presence = [] → tier2Pass rooms presence = [] →
      (broadcastRideRequest rooms presence).fallbackUsed = true
      ∧ (broadcastRideRequest rooms presence).notified = rooms.driversRoom)
  ∧ (tier1Pass rooms presence ≠ [] →
      (broadcastRideRequest rooms presence).fallbackUsed = false
      ∧ (broadcastRideRequest rooms presence).notified = tier1Pass rooms presence)
  ∧ (tier1Pass rooms presence = [] → tier2Pass rooms presence ≠ [] →
      (broadcastRideRequest rooms presence).fallbackUsed = false
      ∧ (broadcastRideRequest rooms presence).notified = tier2Pass rooms presence)
  ∧ (rooms.driversRoom ≠ [] → (broadcastRideRequest rooms presence).notified ≠ []) := by
  refine ⟨?_, ?_, ?_, ?_⟩
  · intro h1 h2
    simp [broadcastRideRequest, h1, h2]
  · intro h1
    simp [broadcastRideRequest, h1]
  · intro h1 h2
    simp [broadcastRideRequest, h1, h2]
  · intro h
    by_cases h1 : tier1Pass rooms presence = []
    · by_cases h2 : tier2Pass rooms presence = []
      · simp [broadcastRideRequest, h1, h2, h]
      · simp [broadcastRideRequest, h1, h2]
    · simp [broadcastRideRequest, h1]

/-- C3 (witness): with zero online main drivers and zero online sub-drivers
but one connected driver session, the fallback fires and the whole drivers
room — which is nonempty — is notified. -/
theorem broadcast_tiered_fallback_witness :
    (broadcastRideRequest emptyTiersRooms offlinePresence).fallbackUsed = true
  ∧ (broadcastRideRequest emptyTiersRooms offlinePresence).notified
      = emptyTiersRooms.driversRoom
  ∧ (broadcastRideRequest emptyTiersRooms offlinePresence).notified ≠ [] := by
  have h := broadcast_tiered_fallback emptyTiersRooms offlinePresence
  exact ⟨(h.1 rfl rfl).1, (h.1 rfl rfl).2, h.2.2.2 (by decide)⟩

/-! ### C4 / C9 — OTP verification -/

/-- A pending ride that never had a pickup OTP generated. -/
def noOtpRide : Ride :=
  { user := 5, rideType := "bike", pricing := testPricing, verificationOtp := none }

/-- C4 (amended): for a ride with a nonempty stored verification code and a
nonempty entered value, verification succeeds exactly when the two values are
equal after whitespace-trimming; on success it sets `otpVerified = true` and
`otpVerifiedAt`, and on a mismatch it returns the Invalid-OTP outcome with the
ride unmodified.  (An EMPTY or missing entered value never reaches the
comparison: the route rejects it earlier with the parameters-required
outcome — see the counterexample.) -/
theorem verifyOtp_trim_match (r : Ride) (s : String) (entered : Option String) (now : Nat)
    (hs : r.verificationOtp = some s) (hne : s ≠ "") (hent : jsTruthyStr entered = true) :
    ((verifyOtp (some r) entered now).1 = .success ↔ jsTrim s = jsTrim (entered.getD ""))
  ∧ (jsTrim s = jsTrim (entered.getD "") →
      verifyOtp (some r) entered now
        = (.success, some { r with otpVerified := true, otpVerifiedAt := some now }))
  ∧ (jsTrim s ≠ jsTrim (entered.getD "") →
      verifyOtp (some r) entered now = (.invalidOtp, some r)) := by
  have hguard : jsTruthyStr (some s) = true := by
    have hE : s.isEmpty = false := by
      cases hE : s.isEmpty
      · rfl
      · exact absurd ((String.isEmpty_iff s).mp hE) hne
    simp [jsTruthyStr, hE]
  have hMatch : ((some s : Option String) = entered ∨ jsTrim s = jsTrim (entered.getD ""))
      ↔ jsTrim s = jsTrim (entered.getD "") := by
    constructor
    · rintro (h | h)
      · subst h
        rfl
      · exact h
    · exact fun h => Or.inr h
  have key : verifyOtp (some r) entered now =
      if jsTrim s = jsTrim (entered.getD "") then
        (.success, some { r with otpVerified := true, otpVerifiedAt := some now })
      else (.invalidOtp, some r) := by
    simp only [verifyOtp, hent, hs, Option.getD_some, hguard]
    simp [hMatch]
  by_cases htr : jsTrim s = jsTrim (entered.getD "")
  · refine ⟨?_, fun _ => ?_, fun hc => absurd htr hc⟩ <;> simp [key, htr]
  · refine ⟨?_, fun hc => absurd hc htr, fun _ => ?_⟩ <;> simp [key, htr]

/-- C4 (witness): stored code "1234" verifies against the whitespace-padded
entry " 1234 " and marks the ride verified; the entry "1235" is rejected with
the Invalid-OTP outcome and the ride is left unmodified. -/
theorem verifyOtp_trim_match_witness :
    (verifyOtp (some unverifiedAcceptedRide) (some " 1234 ") 7).1 = .success
  ∧ ((verifyOtp (some unverifiedAcceptedRide) (some " 1234 ") 7).2.map Ride.otpVerified)
      = some true
  ∧ verifyOtp (some unverifiedAcceptedRide) (some "1235") 7
      = (.invalidOtp, some unverifiedAcceptedRide) := by
  have h1 := verifyOtp_trim_match unverifiedAcceptedRide "1234" (some " 1234 ") 7 rfl
    (by decide) (by decide)
  have h2 := verifyOtp_trim_match unverifiedAcceptedRide "1234" (some "1235") 7 rfl
    (by decide) (by decide)
  refine ⟨h1.1.mpr (by decide), ?_, h2.2.2 (by decide)⟩
  rw [h1.2.1 (by decide)]
  rfl

/-- C4 (counterexample): an empty entered value against stored code "1234" is
a mismatch, yet the route answers with the parameters-required outcome, not
the Invalid-OTP outcome the claim promises for every mismatch (the
`!enteredOtp` guard fires before the ride is even loaded). -/
theorem verifyOtp_empty_entry_outcome :
    unverifiedAcceptedRide.verificationOtp = some "1234"
  ∧ verifyOtp (some unverifiedAcceptedRide) (some "") 7
      = (.paramsRequired, some unverifiedAcceptedRide)
  ∧ VerifyOtpResult.paramsRequired ≠ VerifyOtpResult.invalidOtp := by
  decide

/-- C9 (amended): when the stored verification code is null or empty,
verification never succeeds and the ride is left unmodified for EVERY entered
value; a nonempty entered value receives the Invalid-OTP outcome, while an
empty or missing one is rejected by the earlier parameters-required guard. -/
theorem verifyOtp_absent_code_never_verifies (r : Ride) (entered : Option String) (now : Nat)
    (h : r.verificationOtp = none ∨ r.verificationOtp = some "") :
    (verifyOtp (some r) entered now).1 ≠ .success
  ∧ (verifyOtp (some r) entered now).2 = some r
  ∧ (jsTruthyStr entered = true → (verifyOtp (some r) entered now).1 = .invalidOtp) := by
  have hfn : jsTruthyStr (none : Option String) = false := rfl
  have hfe : jsTruthyStr (some "") = false := rfl
  rcases h with h | h <;> by_cases he : jsTruthyStr entered = true <;>
    simp [verifyOtp, h, he, hfn, hfe]

/-- C9 (witness): with no stored code, the nonempty entry "1234" gets the
Invalid-OTP outcome and the ride is unchanged. -/
theorem verifyOtp_absent_code_witness :
    (verifyOtp (some noOtpRide) (some "1234") 3).1 = .invalidOtp
  ∧ (verifyOtp (some noOtpRide) (some "1234") 3).2 = some noOtpRide := by
  have h := verifyOtp_absent_code_never_verifies noOtpRide (some "1234") 3 (Or.inl rfl)
  exact ⟨h.2.2 (by decide), h.2.1⟩

/-- C9 (counterexample): for a ride with no stored code, an empty or missing
entered value is answered with the parameters-required outcome, not the
Invalid-OTP outcome the claim specifies (the ride is still unmodified). -/
theorem verifyOtp_absent_code_empty_entry :
    verifyOtp (some noOtpRide) none 3 = (.paramsRequired, some noOtpRide)
  ∧ verifyOtp (some noOtpRide) (some "") 3 = (.paramsRequired, some noOtpRide)
  ∧ VerifyOtpResult.paramsRequired ≠ VerifyOtpResult.invalidOtp := by
  decide

/-! ### C5 — decline -/

/-- C5 (amended): declining a ride with no assigned driver performs no write
at all: the ride — in particular its declined-by set, status and driver
field — is left untouched, and the offer is re-broadcast to the whole drivers
room with an exclude-list equal to the ride's stored, unchanged, declined-by
set, so the declining driver is NOT added to it; a ride that already has a
driver yields the already-accepted outcome, also unchanged. -/
theorem decline_no_record (r : Ride) (d : Nat) :
    (r.driver = none →
      declineRide (some r) d =
        { result := .declined, db := some r, rebroadcastToDriversRoom := true,
          excludeDriversPayload := r.declinedDrivers, declinerNotified := some d })
  ∧ (r.driver ≠ none →
      declineRide (some r) d =
        { result := .alreadyAccepted, db := some r, rebroadcastToDriversRoom := false,
          excludeDriversPayload := [], declinerNotified := none }) := by
  constructor <;> intro h <;> simp [declineRide, h]

/-- C5 (witness): declining a concrete free ride leaves it untouched, with an
empty exclude-list in the re-broadcast payload. -/
theorem decline_no_record_witness :
    declineRide (some pendingRide) 7 =
      { result := .declined, db := some pendingRide, rebroadcastToDriversRoom := true,
        excludeDriversPayload := pendingRide.declinedDrivers, declinerNotified := some 7 }
  ∧ pendingRide.declinedDrivers = [] := by
  exact ⟨(decline_no_record pendingRide 7).1 rfl, rfl⟩

/-- C5 (counterexample): after driver 7 declines a concrete free ride, the
stored declined-by set is still empty — the decliner was NOT recorded (the
route skips the write) — and the re-broadcast's exclude-list is empty, so the
declining driver is not excluded from the re-offer. -/
theorem decline_not_recorded :
    (declineRide (some pendingRide) 7).result = .declined
  ∧ ((declineRide (some pendingRide) 7).db.map Ride.declinedDrivers) = some []
  ∧ (declineRide (some pendingRide) 7).rebroadcastToDriversRoom = true
  ∧ ¬ 7 ∈ (declineRide (some pendingRide) 7).excludeDriversPayload := by
  decide

/-! ### C6 — cancellation fee -/

/-- A started ride (accepted, then picked up and started) worth 100. -/
def startedRide : Ride :=
  { user := 5, driver := some 1, rideType := "bike", status := .started,
    pricing := testPricing, otpVerified := true }

/-- `mathMax 0 x` is never negative. -/
theorem mathMax_zero_nonneg (x : ℚ) : 0 ≤ mathMax 0 x := by
  unfold mathMax
  split
  · assumption
  · exact le_refl 0

/-- C6 (amended): cancelling a completed or cancelled ride is rejected with no
state change; cancelling a pending or searching ride yields fee 0 and refund
= finalAmount; the fee min(10% of finalAmount, 50) applies exactly when the
status is `accepted` or `arrived` — a ride already STARTED is cancelled with
fee 0, not the percentage fee — and every refund equals
max(0, finalAmount − fee), hence is never negative. -/
theorem cancel_fee_policy (r : Ride) (reason : Option String) (now : Nat)
    (hpos : 0 ≤ r.pricing.finalAmount) :
    (r.status = .completed ∨ r.status = .cancelled →
        cancelRideRoute (some r) r.user reason now = (.cannotCancel, some r))
  ∧ (r.status = .pending ∨ r.status = .searching →
        (cancelRideRoute (some r) r.user reason now).1
          = .cancelled 0 r.pricing.finalAmount)
  ∧ (r.status = .accepted ∨ r.status = .arrived →
        (cancelRideRoute (some r) r.user reason now).1
          = .cancelled (mathMin (r.pricing.finalAmount / 10) 50)
              (mathMax 0 (r.pricing.finalAmount - mathMin (r.pricing.finalAmount / 10) 50)))
  ∧ (r.status = .started →
        (cancelRideRoute (some r) r.user reason now).1
          = .cancelled 0 r.pricing.finalAmount)
  ∧ (∀ fee refund, (cancelRideRoute (some r) r.user reason now).1 = .cancelled fee refund →
        0 ≤ refund) := by
  refine ⟨?_, ?_, ?_, ?_, ?_⟩
  · rintro (h | h) <;> simp [cancelRideRoute, h]
  · rintro (h | h) <;>
      simp [cancelRideRoute, cancellationFeeFor, h, mathMax, hpos]
  · rintro (h | h) <;>
      simp [cancelRideRoute, cancellationFeeFor, h]
  · intro h
    simp [cancelRideRoute, cancellationFeeFor, h, mathMax, hpos]
  · intro fee refund h
    simp only [cancelRideRoute] at h
    split_ifs at h
    simp_all
    rcases h with ⟨hf, hr⟩
    rw [← hr]
    exact mathMax_zero_nonneg _

/-- C6 (witness): a concrete pending ride worth 100 cancels with fee 0 and
refund 100; a concrete accepted ride worth 100 cancels with fee 10 and refund
90. -/
theorem cancel_fee_policy_witness :
    (cancelRideRoute (some pendingRide) pendingRide.user none 9).1
      = CancelResult.cancelled 0 100
  ∧ (cancelRideRoute (some unverifiedAcceptedRide) unverifiedAcceptedRide.user none 9).1
      = CancelResult.cancelled 10 90 := by
  have h1 := cancel_fee_policy pendingRide none 9 (by norm_num [pendingRide, testPricing])
  have h2 := cancel_fee_policy unverifiedAcceptedRide none 9
    (by norm_num [unverifiedAcceptedRide, testPricing])
  constructor
  · have h := h1.2.1 (Or.inl rfl)
    rw [h]
    norm_num [pendingRide, testPricing]
  · have h := h2.2.2.1 (Or.inl rfl)
    rw [h]
    norm_num [unverifiedAcceptedRide, testPricing, mathMin, mathMax]

/-- C6 (counterexample): a ride that has been accepted and then started — a
post-acceptance, non-terminal state — is cancelled by its customer with fee 0
and full refund, not the fee min(10% of finalAmount, cap) = 10 the claim
requires after acceptance (the route charges the fee only in the `accepted`
and `arrived` statuses). -/
theorem cancel_started_no_fee :
    startedRide.status = RideStatus.started
  ∧ (cancelRideRoute (some startedRide) 5 none 9).1 = CancelResult.cancelled 0 100
  ∧ ¬ (0 : ℚ) = mathMin (startedRide.pricing.finalAmount / 10) 50 := by
  refine ⟨rfl, ?_, ?_⟩
  · simp [cancelRideRoute, cancellationFeeFor, startedRide, testPricing, mathMax]
  · norm_num [startedRide, testPricing, mathMin]

/-! ### C7 — dispatch candidate check -/

/-- An online, available main driver whose vehicle is a truck. -/
def truckDriver : UserRec :=
  { id := 4, role := .driver, isOnline := true,
    driverInfo := { isAvailable := some true, vehicleType := some "truck" } }

/-- Rooms with one main-driver session, belonging to the truck driver. -/
def truckOnlyRooms : SocketRooms :=
  { mainDriversRoom := [⟨1, 4⟩], subDriversRoom := [], driversRoom := [⟨1, 4⟩] }

/-- Presence store holding only the truck driver. -/
def truckOnlyPresence : Nat → Option UserRec :=
  fun i => if i = 4 then some truckDriver else none

/-- C7 (amended): a session passes the tier-1 (resp. tier-2) dispatch pass
exactly when a fresh presence read shows the user online, with availability
not equal to false, and with the Driver (resp. SubDriver) role — the pass
performs NO vehicle-class comparison; the vehicle rule (exact lower-cased
class match for passenger rides, any of bike/auto/car for delivery) is
enforced only later, by the driver accept-ride endpoint, whose validation
cannot succeed when the rule fails. -/
theorem dispatch_no_vehicle_check (rooms : SocketRooms) (presence : Nat → Option UserRec)
    (s : Session) :
    (s ∈ tier1Pass rooms presence ↔
        s ∈ rooms.mainDriversRoom ∧ dispatchEligible .driver (presence s.userId) = true)
  ∧ (s ∈ tier2Pass rooms presence ↔
        s ∈ rooms.subDriversRoom ∧ dispatchEligible .subDriver (presence s.userId) = true)
  ∧ (∀ (r : Ride) (u : UserRec),
        driverAcceptCheck (some r) u = none →
        driverVehicleOk r u.driverInfo.vehicleType = true) := by
  refine ⟨?_, ?_, ?_⟩
  · simp [tier1Pass, List.mem_filter]
  · simp [tier2Pass, List.mem_filter]
  · intro r u h
    by_cases hv : driverVehicleOk r u.driverInfo.vehicleType
    · exact hv
    · exfalso
      simp only [driverAcceptCheck, hv] at h
      split_ifs at h
      simp_all

/-- C7 (witness): the truck driver's session passes tier 1 in the concrete
state, and a driver whose bike matches the pending bike ride passes the
accept-time vehicle rule. -/
theorem dispatch_no_vehicle_check_witness :
    ((⟨1, 4⟩ : Session) ∈ tier1Pass truckOnlyRooms truckOnlyPresence)
  ∧ driverVehicleOk pendingRide driverA.driverInfo.vehicleType = true := by
  have h := dispatch_no_vehicle_check truckOnlyRooms truckOnlyPresence ⟨1, 4⟩
  exact ⟨h.1.mpr ⟨by decide, by decide⟩, h.2.2 pendingRide driverA (by decide)⟩

/-- C7 (counterexample): for a pending "bike" passenger ride, the tier-1 pass
pushes the offer to the truck driver's session even though the driver's
vehicle class fails the accept-time matching rule — the dispatch pass never
consults the vehicle class, refuting the claimed vehicle-match condition. -/
theorem dispatch_ignores_vehicle_class :
    (broadcastRideRequest truckOnlyRooms truckOnlyPresence).mainSent = [⟨1, 4⟩]
  ∧ (broadcastRideRequest truckOnlyRooms truckOnlyPresence).notified = [⟨1, 4⟩]
  ∧ pendingRide.rideType = "bike"
  ∧ pendingRide.serviceType = "ride"
  ∧ driverVehicleOk pendingRide truckDriver.driverInfo.vehicleType = false := by
  decide

/-! ### C8 — availability after accept -/

/-- A main driver whose availability flag is currently false. -/
def busyWinner : UserRec :=
  { id := 9, role := .driver, isOnline := true,
    driverInfo := { isAvailable := some false, vehicleType := some "bike" } }

/-- C8 (amended): the DRIVER accept-ride endpoint sets the winner's
availability flag to false as part of a successful acceptance; the ADMIN
accept endpoint does the opposite — after its successful conditional update
it ensures the winner's availability flag is TRUE (writing true whenever the
flag was not already true). -/
theorem accept_availability_side_effect (db : Option Ride) (u : UserRec)
    (sub : Option Nat) (now : Nat) :
    ((driverAcceptRide db u sub now).1 = none →
        (driverAcceptRide db u sub now).2.2.driverInfo.isAvailable = some false)
  ∧ ((adminAcceptFull db u sub now).1 = .success →
        (adminAcceptFull db u sub now).2.2.driverInfo.isAvailable = some true) := by
  constructor
  · intro h
    cases hc : driverAcceptCheck db u with
    | some e =>
      cases e <;> simp [driverAcceptRide, hc] at h
    | none =>
      cases db with
      | none => simp [driverAcceptRide, hc] at h
      | some r => simp [driverAcceptRide, hc]
  · intro h
    cases hm : adminAcceptRide db u.id sub now with
    | mk res db' =>
      cases res with
      | success =>
        simp only [adminAcceptFull, hm, adminAcceptAvailabilityFix]
        split
        · assumption
        · simp
      | rideNotFound => simp [adminAcceptFull, hm] at h
      | alreadyAccepted => simp [adminAcceptFull, hm] at h

/-- C8 (witness): in the concrete race fixtures, the driver-route winner ends
unavailable while the admin-route winner — who was busy before — ends
available. -/
theorem accept_availability_side_effect_witness :
    ((driverAcceptRide (some pendingRide) driverA none 10).2.2.driverInfo.isAvailable
        = some false)
  ∧ ((adminAcceptFull (some pendingRide) busyWinner none 5).2.2.driverInfo.isAvailable
        = some true) := by
  have h1 := accept_availability_side_effect (some pendingRide) driverA none 10
  have h2 := accept_availability_side_effect (some pendingRide) busyWinner none 5
  exact ⟨h1.1 (by decide), h2.2 (by decide)⟩

/-- C8 (counterexample): the admin accept endpoint succeeds for a busy winner
(availability false) and leaves the Presence Store showing the winner
AVAILABLE (true), refuting the claim that every successful accept sets the
winner's availability flag to false. -/
theorem admin_accept_sets_available_true :
    (adminAcceptFull (some pendingRide) busyWinner none 5).1 = .success
  ∧ busyWinner.driverInfo.isAvailable = some false
  ∧ (adminAcceptFull (some pendingRide) busyWinner none 5).2.2.driverInfo.isAvailable
      = some true := by
  decide

/-! ### C10 — online/available sync -/

/-- C10: after a driver or sub-driver runs the update-availability socket
handler, and after a driver or sub-driver disconnect, the user's online flag
equals the stored availability flag — both handlers write the two fields to
the same value. -/
theorem presence_flags_in_sync (u : UserRec) (b : Bool)
    (h : u.role = Role.driver ∨ u.role = Role.subDriver) :
    ((updateAvailabilityHandler u b).2.driverInfo.isAvailable
        = some ((updateAvailabilityHandler u b).2.isOnline))
  ∧ ((disconnectHandler u).driverInfo.isAvailable
        = some ((disconnectHandler u).isOnline)) := by
  constructor
  · simp [updateAvailabilityHandler, h]
  · rcases h with h | h <;> simp [disconnectHandler, h]

/-- C10 (witness): the sync holds for a concrete driver going unavailable and
for that driver disconnecting. -/
theorem presence_flags_in_sync_witness :
    ((updateAvailabilityHandler driverA false).2.driverInfo.isAvailable
        = some ((updateAvailabilityHandler driverA false).2.isOnline))
  ∧ ((disconnectHandler driverA).driverInfo.isAvailable
        = some ((disconnectHandler driverA).isOnline)) := by
  exact presence_flags_in_sync driverA false (Or.inl rfl)

end IuApk
